import Mathlib

/-!
Verification of the secure process-invocation engine of the cursor-agent
MCP wrapper (src/server.js) against its natural-language specification.

The JavaScript source is shallowly embedded: each JS function the claims
touch is translated into an executable Lean definition over Strings,
Lists and Options.  POSIX path semantics are assumed for the `node:path`
module (the validation code uses `path.sep`, `path.resolve`,
`path.normalize`, `path.isAbsolute`).  String primitives are implemented
over `List Char` so that every definition reduces inside the kernel.
-/

deriving instance DecidableEq for Except

namespace CursorAgentMcp

/-! ## JavaScript string primitives -/

/-- Character-list containment: does `sub` occur as a contiguous
infix of `s`? -/
def listIncl (sub : List Char) : List Char → Bool
  | [] => sub.isEmpty
  | x :: rest => sub.isPrefixOf (x :: rest) || listIncl sub rest

/-- JS `s.includes(sub)`. -/
def jsIncludes (s sub : String) : Bool :=
  listIncl sub.data s.data

/-- JS `s.startsWith(pre)`. -/
def jsStartsWith (s pre : String) : Bool :=
  pre.data.isPrefixOf s.data

/-- JS `s.endsWith(suf)`. -/
def jsEndsWith (s suf : String) : Bool :=
  suf.data.reverse.isPrefixOf s.data.reverse

/-- JS `s.trim()`: strip whitespace from both ends. -/
def jsTrim (s : String) : String :=
  String.mk (((s.data.dropWhile Char.isWhitespace).reverse.dropWhile Char.isWhitespace).reverse)

/-- JS `x || d` on an optional string: falsy (`undefined` or `""`) falls
back to the default. -/
def jsOrStr (o : Option String) (d : String) : String :=
  match o with
  | some s => if s = "" then d else s
  | none => d

/-- Split a character list at every occurrence of `c` (like
JS `s.split("/")` for a one-character separator). -/
def splitOnChar (c : Char) : List Char → List (List Char)
  | [] => [[]]
  | x :: xs =>
    let r := splitOnChar c xs
    if x = c then [] :: r
    else
      match r with
      | [] => [[x]]
      | y :: ys => (x :: y) :: ys

/-- Split a string into its `/`-separated segments. -/
def slashSegs (s : String) : List String :=
  (splitOnChar '/' s.data).map String.mk

/-- Join segments with `/`. -/
def joinSegs : List String → String
  | [] => ""
  | [x] => x
  | x :: xs => x ++ "/" ++ joinSegs xs

/-! ## POSIX path model (`node:path` with `path.sep = "/"`) -/

/-- Segment normalization core shared by `path.normalize` and
`path.resolve`: drops empty and `.` segments and resolves `..`
(at the root of an absolute path a surplus `..` is dropped; for a
relative path it is kept).  The accumulator holds segments reversed. -/
def posixNormSegs (abs : Bool) (segs : List String) : List String :=
  (segs.foldl (fun acc seg =>
    if seg = "" || seg = "." then acc
    else if seg = ".." then
      match acc with
      | [] => if abs then [] else [".."]
      | a :: rest => if a = ".." then seg :: acc else rest
    else seg :: acc) []).reverse

/-- `path.normalize` (posix): resolves `.` and `..` segments and
collapses repeated separators, preserving a trailing separator. -/
def jsPathNormalize (p : String) : String :=
  if p = "" then "." else
  let abs := jsStartsWith p "/"
  let trail := jsEndsWith p "/"
  let body := joinSegs (posixNormSegs abs (slashSegs p))
  if abs then
    if body = "" then "/"
    else if trail then "/" ++ body ++ "/" else "/" ++ body
  else
    if body = "" then (if trail then "./" else ".")
    else if trail then body ++ "/" else body

/-- `path.resolve(p)` (posix) against an absolute working directory
`base`: absolute inputs are normalized, relative inputs are joined onto
`base` first; the result carries no trailing separator. -/
def jsPathResolve (base p : String) : String :=
  let joined := if jsStartsWith p "/" then p else base ++ "/" ++ p
  let body := joinSegs (posixNormSegs true (slashSegs joined))
  if body = "" then "/" else "/" ++ body

/-! ## Validation errors -/

/-- Error taxonomy of the validation layer (spec section 7). -/
inductive VErr where
  | invalidExecutable (msg : String)
  | pathEscape (msg : String)
  | missingPath
deriving DecidableEq

/-- Boolean classifier: did validation fail with a `PathEscape` error? -/
def isPathEscape : Except VErr String → Bool
  | .error (.pathEscape _) => true
  | _ => false

/-- Boolean classifier: did validation fail with `InvalidExecutable`? -/
def isInvalidExecutable : Except VErr String → Bool
  | .error (.invalidExecutable _) => true
  | _ => false

/-! ## Executable path validation (src/server.js lines 35-46, 124-150) -/

/-- Embeds the `executablePathSchema` zod transform (src/server.js
lines 35-46): empty input becomes `none`; if the normalized trimmed
value contains `..`, or is relative and contains a separator, parsing
throws; otherwise an absolute value is returned normalized and a
relative one is returned as trimmed. -/
def executablePathParse (val : Option String) : Except String (Option String) :=
  match val with
  | none => .ok none
  | some v =>
    if jsTrim v = "" then .ok none else
    let trimmed := jsTrim v
    let normalized := jsPathNormalize trimmed
    if jsIncludes normalized ".." || (!(jsStartsWith normalized "/") && jsIncludes normalized "/") then
      .error "CURSOR_AGENT_PATH contains invalid path traversal"
    else
      .ok (some (if jsStartsWith normalized "/" then normalized else trimmed))

/-- Boolean classifier for schema-level parse failure. -/
def parseThrew (x : Except String (Option String)) : Bool :=
  match x with
  | .error _ => true
  | .ok _ => false

/-- Embeds `validateExecutablePath` (src/server.js lines 124-150):
`envPath` is the validated `CURSOR_AGENT_PATH` override.  Empty or
whitespace input falls back to the override or the `"cursor-agent"`
sentinel; the sentinel and the exact override are accepted; everything
else is rejected. -/
def validateExecutablePath (envPath : Option String) (explicit : Option String) : Except VErr String :=
  let ex := explicit.getD ""
  if jsTrim ex = "" then
    match envPath with
    | some p => .ok p
    | none => .ok "cursor-agent"
  else
    let trimmed := jsTrim ex
    if trimmed = "cursor-agent" then .ok "cursor-agent"
    else
      match envPath with
      | some p =>
        if trimmed = p then .ok p
        else .error (.invalidExecutable ("Invalid executable path: \"" ++ trimmed ++ "\". Only \"cursor-agent\" or exact match to CURSOR_AGENT_PATH is allowed."))
      | none => .error (.invalidExecutable ("Invalid executable path: \"" ++ trimmed ++ "\". Only \"cursor-agent\" or exact match to CURSOR_AGENT_PATH is allowed."))

/-! ## Working directory / file path validation (src/server.js 156-214) -/

/-- Embeds `validateWorkingDirectory` (src/server.js lines 156-182)
with `base` standing for `process.cwd()` (always an absolute resolved
path at runtime).  Empty input yields the base; otherwise the trimmed
input must resolve to the base or a separator-bounded descendant, with
a second containment check on inputs whose normalized form contains
`..`. -/
def validateWorkingDirectory (base : String) (cwd : Option String) : Except VErr String :=
  let c := cwd.getD ""
  if jsTrim c = "" then .ok base
  else
    let trimmed := jsTrim c
    let resolved := jsPathResolve base trimmed
    let baseResolved := jsPathResolve base base
    if resolved ≠ baseResolved ∧ jsStartsWith resolved (baseResolved ++ "/") = false then
      .error (.pathEscape ("Working directory \"" ++ trimmed ++ "\" is outside allowed path \"" ++ base ++ "\""))
    else
      let normalized := jsPathNormalize trimmed
      if jsIncludes normalized ".." then
        let normalizedResolved := jsPathResolve base normalized
        if normalizedResolved ≠ baseResolved ∧ jsStartsWith normalizedResolved (baseResolved ++ "/") = false then
          .error (.pathEscape ("Working directory \"" ++ trimmed ++ "\" contains invalid path traversal"))
        else .ok resolved
      else .ok resolved

/-- Embeds `validateFilePath` (src/server.js lines 188-214): identical
containment policy to `validateWorkingDirectory`, except an empty input
is an error rather than a fallback to the base. -/
def validateFilePath (base : String) (filePath : Option String) : Except VErr String :=
  let f := filePath.getD ""
  if jsTrim f = "" then .error .missingPath
  else
    let trimmed := jsTrim f
    let resolved := jsPathResolve base trimmed
    let baseResolved := jsPathResolve base base
    if resolved ≠ baseResolved ∧ jsStartsWith resolved (baseResolved ++ "/") = false then
      .error (.pathEscape ("File path \"" ++ trimmed ++ "\" is outside allowed directory \"" ++ base ++ "\""))
    else
      let normalized := jsPathNormalize trimmed
      if jsIncludes normalized ".." then
        let normalizedResolved := jsPathResolve base normalized
        if normalizedResolved ≠ baseResolved ∧ jsStartsWith normalizedResolved (baseResolved ++ "/") = false then
          .error (.pathEscape ("File path \"" ++ trimmed ++ "\" contains invalid path traversal"))
        else .ok resolved
      else .ok resolved

/-! ## Validated environment (src/server.js lines 49-116) -/

/-- Result of parsing the recognized environment variables through
`ENV_SCHEMA` (src/server.js lines 49-58). -/
structure ValidatedEnv where
  EXECUTING_CLIENT : Option String := none
  CURSOR_AGENT_PATH : Option String := none
  DEBUG_CURSOR_MCP : Bool := false
  CURSOR_AGENT_ECHO_PROMPT : Bool := false
  CURSOR_AGENT_MODEL : Option String := none
  CURSOR_AGENT_FORCE : Bool := false
  CURSOR_AGENT_IDLE_EXIT_MS : Option Nat := none
  CURSOR_AGENT_TIMEOUT_MS : Option Nat := none
deriving DecidableEq

/-- The keys `ENV_SCHEMA` recognizes (src/server.js lines 49-58). -/
def recognizedConfigKeys : List String :=
  ["EXECUTING_CLIENT", "CURSOR_AGENT_PATH", "DEBUG_CURSOR_MCP",
   "CURSOR_AGENT_ECHO_PROMPT", "CURSOR_AGENT_MODEL", "CURSOR_AGENT_FORCE",
   "CURSOR_AGENT_IDLE_EXIT_MS", "CURSOR_AGENT_TIMEOUT_MS"]

/-! ## Environment sanitizer (src/server.js lines 221-294) -/

/-- The fixed system allow-list of `getSafeEnvironment`
(src/server.js lines 222-239). -/
def systemWhitelist : List String :=
  ["PATH", "HOME", "USER", "USERNAME", "SHELL", "TMPDIR", "TEMP", "TMP",
   "NODE_VERSION", "LANG", "LANGUAGE", "EXECUTING_CLIENT"]

/-- One of the three allow-listed key families: `CURSOR_AGENT_*`,
`NPM_CONFIG_*`, `LC_*` (src/server.js lines 241-246). -/
def allowedFamily (k : String) : Bool :=
  jsStartsWith k "CURSOR_AGENT_" || jsStartsWith k "NPM_CONFIG_" || jsStartsWith k "LC_"

/-- The ambient process environment, as an association list. -/
def lookupEnv (ambient : List (String × String)) (k : String) : Option String :=
  (ambient.find? (fun kv => kv.1 = k)).map (fun kv => kv.2)

/-- Entry produced for an optional validated string variable. -/
def optEntry (name : String) (v : Option String) : List (String × String) :=
  match v with
  | some s => [(name, s)]
  | none => []

/-- Entry produced for a boolean validated variable: the original
ambient string is preserved when truthy, defaulting to `"1"`. -/
def condEntry (name : String) (b : Bool) (ambientVal : Option String) : List (String × String) :=
  if b then [(name, jsOrStr ambientVal "1")] else []

/-- Entry produced for a numeric validated variable, stringified. -/
def natEntry (name : String) (v : Option Nat) : List (String × String) :=
  match v with
  | some n => [(name, toString n)]
  | none => []

/-- The part of `safeEnv` populated from validated configuration
(src/server.js lines 250-276). -/
def safeEnvBase (env : ValidatedEnv) (ambient : List (String × String)) : List (String × String) :=
  optEntry "EXECUTING_CLIENT" env.EXECUTING_CLIENT ++
  optEntry "CURSOR_AGENT_PATH" env.CURSOR_AGENT_PATH ++
  condEntry "DEBUG_CURSOR_MCP" env.DEBUG_CURSOR_MCP (lookupEnv ambient "DEBUG_CURSOR_MCP") ++
  condEntry "CURSOR_AGENT_ECHO_PROMPT" env.CURSOR_AGENT_ECHO_PROMPT (lookupEnv ambient "CURSOR_AGENT_ECHO_PROMPT") ++
  optEntry "CURSOR_AGENT_MODEL" env.CURSOR_AGENT_MODEL ++
  condEntry "CURSOR_AGENT_FORCE" env.CURSOR_AGENT_FORCE (lookupEnv ambient "CURSOR_AGENT_FORCE") ++
  natEntry "CURSOR_AGENT_IDLE_EXIT_MS" env.CURSOR_AGENT_IDLE_EXIT_MS ++
  natEntry "CURSOR_AGENT_TIMEOUT_MS" env.CURSOR_AGENT_TIMEOUT_MS

/-- One step of the ambient-environment scan (src/server.js lines
279-291): copy a key only when allow-listed (by name or family) and not
already present. -/
def scanStep (acc : List (String × String)) (kv : String × String) : List (String × String) :=
  if (systemWhitelist.contains kv.1 || allowedFamily kv.1) && !(acc.any (fun e => e.1 = kv.1)) then
    acc ++ [kv]
  else acc

/-- Embeds `getSafeEnvironment` (src/server.js lines 221-294). -/
def getSafeEnvironment (env : ValidatedEnv) (ambient : List (String × String)) : List (String × String) :=
  ambient.foldl scanStep (safeEnvBase env ambient)

/-! ## Argument composer (src/server.js lines 336-368) -/

/-- Presence test for an existing model flag: short/long form and
`=`-joined variants (src/server.js line 337). -/
def isModelFlag (a : String) : Bool :=
  a = "-m" || a = "--model" || jsStartsWith a "-m=" || jsStartsWith a "--model="

/-- JS `model?.trim?.() || envModel` (src/server.js line 339). -/
def effectiveModel (model envModel : Option String) : Option String :=
  match model with
  | some m => if jsTrim m = "" then envModel else some (jsTrim m)
  | none => envModel

/-- Extract the trailing prompt (src/server.js lines 345-355): the last
argument counts as the prompt when it is a nonempty string not starting
with `-`. -/
def extractPrompt (userArgs : List String) : Option String × List String :=
  match userArgs.getLast? with
  | some lastArg =>
    if lastArg ≠ "" ∧ jsStartsWith lastArg "-" = false then (some lastArg, userArgs.dropLast)
    else (none, userArgs)
  | none => (none, userArgs)

/-- Embeds the `finalArgv` computation of `invokeCursorAgent`
(src/server.js lines 336-368).  `useStream` is `!!onProgress`. -/
def composeFinalArgv (argv : List String) (outputFormat : String)
    (model envModel : Option String) (force : Option Bool) (envForce : Bool)
    (print useStream : Bool) : List String :=
  let userArgs := argv
  let hasModelFlag := userArgs.any isModelFlag
  let effModel := effectiveModel model envModel
  let hasForceFlag := userArgs.any (fun a => a = "-f" || a = "--force")
  let effForce := force.getD envForce
  let pr := extractPrompt userArgs
  let finalOutputFormat := if useStream then "stream-json" else outputFormat
  (if print then ["--print", "--output-format", finalOutputFormat] else []) ++
  (if useStream && print then ["--stream-partial-output"] else []) ++
  pr.2 ++
  (if hasForceFlag || !effForce then [] else ["-f"]) ++
  (match effModel with
   | some m => if hasModelFlag then [] else ["--model", m]
   | none => []) ++
  (match pr.1 with
   | some p => [p]
   | none => [])

/-! ## Result and diagnostic messages -/

/-- The public result shape `{ content: [{type:"text", text}], isError? }`,
with the single text part flattened. -/
structure InvocationResult where
  text : String
  isError : Bool
deriving DecidableEq

/-- Minimal JSON escaping for `JSON.stringify` of a string (quote and
backslash; control-character escapes are not needed by any claim). -/
def jsonEscape (s : String) : String :=
  String.mk (s.data.foldr (fun c acc =>
    if c = '\\' then '\\' :: '\\' :: acc
    else if c = '"' then '\\' :: '"' :: acc
    else c :: acc) [])

/-- `JSON.stringify` of a string array. -/
def jsonShowStrings (l : List String) : String :=
  "[" ++ String.intercalate "," (l.map (fun s => "\"" ++ jsonEscape s ++ "\"")) ++ "]"

/-- JS template rendering of a `number | null` exit code. -/
def jsShowExitCode : Option Int → String
  | none => "null"
  | some n => toString n

/-- The spawn-failure message (src/server.js lines 563-566): includes
the validated `CURSOR_AGENT_PATH` line exactly when `safeEnv` carries
one. -/
def spawnErrorMsg (cmd emsg : String) (finalArgv : List String) (capPath : Option String) : String :=
  "Failed to start \"" ++ cmd ++ "\": " ++ emsg ++ "\n" ++
  "Args: " ++ jsonShowStrings finalArgv ++ "\n" ++
  (match capPath with
   | some p => "CURSOR_AGENT_PATH=" ++ p ++ "\n"
   | none => "")

/-- The hard-timeout message (src/server.js line 579). -/
def timeoutMsg (timeoutMs : Nat) : String :=
  "cursor-agent timed out after " ++ toString timeoutMs ++ "ms"

/-- The result built by the `close` handler (src/server.js lines
601-608): success on exit code zero or idle-kill with nonempty stdout,
otherwise an error surfacing the exit code and stderr, else stdout,
else the fixed marker. -/
def closeResult (code : Option Int) (out err : String) (killedByIdle : Bool) : InvocationResult :=
  if code = some 0 ∨ (killedByIdle = true ∧ out ≠ "") then
    { text := if out = "" then "(no output)" else out, isError := false }
  else
    { text := "cursor-agent exited with code " ++ jsShowExitCode code ++ "\n" ++
        (if err ≠ "" then err else if out ≠ "" then out else "(no output)"),
      isError := true }

/-! ## Process supervisor (src/server.js lines 370-610)

The promise executor is modelled as a state machine: the mutable
locals of `invokeCursorAgent` (`settled`, `out`, `err`, `killedByIdle`,
the two timers, and the eventual resolution value) form the state, and
each asynchronous callback of the source (stdout/stderr `data`,
process `close`, process `error`, main-timer fire, idle-timer fire)
is one event.  A timer can only fire while armed; `cleanup()` disarms
both timers, and resolving the promise is recorded in `result`. -/

/-- Per-invocation constants: the spawn command, composed argv, the
`CURSOR_AGENT_PATH` carried in `safeEnv`, and the two configured
durations (`idleMs = 0` disables the idle timer). -/
structure SupConfig where
  cmd : String
  finalArgv : List String
  capPath : Option String
  timeoutMs : Nat
  idleMs : Nat
deriving DecidableEq

/-- The mutable locals of the promise executor. -/
structure SupState where
  settled : Bool
  out : String
  err : String
  killedByIdle : Bool
  mainTimerActive : Bool
  idleTimerActive : Bool
  result : Option InvocationResult
deriving DecidableEq

/-- State right after `spawn`: nothing settled, buffers empty, the
hard-timeout timer armed, the idle timer not yet armed (it is armed
only by `scheduleIdleKill` on output). -/
def initSupState : SupState :=
  { settled := false, out := "", err := "", killedByIdle := false,
    mainTimerActive := true, idleTimerActive := false, result := none }

/-- The asynchronous completion and data events racing inside one
invocation.  `cancelFire` is the runtime cancellation signal; see
`cancelStep` for its provenance. -/
inductive SupEvent where
  | stdoutData (chunk : String)
  | stderrData (chunk : String)
  | procClose (code : Option Int)
  | procError (msg : String)
  | mainTimerFire
  | idleTimerFire
  | cancelFire (reason : String)
deriving DecidableEq

/-- Terminal transition: set the `settled` guard, clear both timers
(`cleanup()`), and resolve with `r`. -/
def settleWith (s : SupState) (r : InvocationResult) : SupState :=
  { s with settled := true, mainTimerActive := false, idleTimerActive := false,
           result := some r }

/-- Modelled from the spec: the cancellation message carried into the
result.  Runtime cancellation is absent from src/server.js (only the
repository's integration tests exercise it); spec section 4.4 requires a
`Cancelled` error result "carrying the cancellation reason into the
result text". -/
def cancelMsg (reason : String) : String :=
  "cursor-agent invocation was cancelled: " ++ reason

/-- Modelled from the spec: the runtime-cancellation transition, absent
from src/server.js.  Spec section 4.4: "If triggered while running,
force-kill and transition to `Cancelled`"; like every terminal
transition it is guarded by the settled flag and clears both timers. -/
def cancelStep (s : SupState) (reason : String) : SupState :=
  if s.settled then s
  else settleWith s { text := cancelMsg reason, isError := true }

/-- One event of the supervisor (handlers of src/server.js lines
510-609, plus the spec-modelled cancellation transition). -/
def step (cfg : SupConfig) (s : SupState) (e : SupEvent) : SupState :=
  match e with
  | .stdoutData chunk =>
    let s1 := { s with out := s.out ++ chunk }
    if cfg.idleMs = 0 then s1 else { s1 with idleTimerActive := true }
  | .stderrData chunk => { s with err := s.err ++ chunk }
  | .procClose code =>
    if s.settled then s
    else settleWith s (closeResult code s.out s.err s.killedByIdle)
  | .procError m =>
    if s.settled then s
    else settleWith s { text := spawnErrorMsg cfg.cmd m cfg.finalArgv cfg.capPath, isError := true }
  | .mainTimerFire =>
    if s.mainTimerActive = false then s
    else if s.settled then { s with mainTimerActive := false }
    else settleWith s { text := timeoutMsg cfg.timeoutMs, isError := true }
  | .idleTimerFire =>
    if s.idleTimerActive = false then s
    else { s with idleTimerActive := false, killedByIdle := true }
  | .cancelFire reason => cancelStep s reason

/-- Run the supervisor over a trace of events. -/
def runSup (cfg : SupConfig) (s : SupState) (evs : List SupEvent) : SupState :=
  evs.foldl (step cfg) s

/-! ## Pre-spawn cancellation (spec-modelled) -/

/-- An `AbortSignal`-like cancellation token. -/
structure CancelSignal where
  aborted : Bool
  reason : String
deriving DecidableEq

/-- Outcome of starting an invocation: either resolved before spawning,
or a live supervisor for a spawned child. -/
inductive StartOutcome where
  | immediate (r : InvocationResult)
  | spawned (s : SupState)
deriving DecidableEq

/-- Modelled from the spec: the pre-spawn cancellation check, absent
from src/server.js (only the repository's integration tests exercise
cancellation).  Spec section 4.4: "if a cancellation signal is supplied
and is already triggered at call time, resolve immediately to
`Cancelled` without spawning." -/
def invokeStart (sig : Option CancelSignal) : StartOutcome :=
  match sig with
  | some s =>
    if s.aborted then .immediate { text := cancelMsg s.reason, isError := true }
    else .spawned initSupState
  | none => .spawned initSupState

/-! ## Stream event decoder (src/server.js lines 413-508) -/

/-- A progress notification passed to `onProgress`. -/
structure ProgressUpdate where
  progress : Nat
  total : Option Nat
  message : String
deriving DecidableEq

/-- Success payload of a completed write tool call. -/
structure WriteSuccess where
  linesCreated : Option Nat := none
  fileSize : Option Nat := none
deriving DecidableEq

/-- Success payload of a completed read tool call. -/
structure ReadSuccess where
  totalLines : Option Nat := none
deriving DecidableEq

/-- `tool_call.writeToolCall` as read by the decoder. -/
structure WriteToolCall where
  argsPath : Option String := none
  resultSuccess : Option WriteSuccess := none
  hasResult : Bool := false
deriving DecidableEq

/-- `tool_call.readToolCall` as read by the decoder. -/
structure ReadToolCall where
  argsPath : Option String := none
  resultSuccess : Option ReadSuccess := none
  hasResult : Bool := false
deriving DecidableEq

/-- `event.tool_call` as read by the decoder. -/
structure ToolCallInfo where
  writeCall : Option WriteToolCall := none
  readCall : Option ReadToolCall := none
deriving DecidableEq

/-- A parsed stream-json event, restricted to the fields
`handleStreamEvent` reads (src/server.js lines 413-499). -/
structure RawEvent where
  type : String
  subtype : Option String := none
  model : Option String := none
  msgText : Option String := none
  durationMs : Option Nat := none
  toolCall : Option ToolCallInfo := none
deriving DecidableEq

/-- The decoder's accumulation state (src/server.js lines 378-380). -/
structure StreamState where
  accumulatedText : String
  toolCount : Nat
deriving DecidableEq

/-- Initial decoder state. -/
def initStreamState : StreamState :=
  { accumulatedText := "", toolCount := 0 }

/-- Messages of the `tool_call/started` case (src/server.js lines
443-465). -/
def toolStartedUpdate (n : Nat) (tc : Option ToolCallInfo) : ProgressUpdate :=
  match tc with
  | some info =>
    match info.writeCall with
    | some w => { progress := n, total := none, message := "Writing file: " ++ jsOrStr w.argsPath "unknown" }
    | none =>
      match info.readCall with
      | some r => { progress := n, total := none, message := "Reading file: " ++ jsOrStr r.argsPath "unknown" }
      | none => { progress := n, total := none, message := "Executing tool #" ++ toString n ++ "..." }
  | none => { progress := n, total := none, message := "Executing tool #" ++ toString n ++ "..." }

/-- Messages of the `tool_call/completed` case (src/server.js lines
466-488); yields no update when neither side carries a result. -/
def toolCompletedUpdates (n : Nat) (tc : Option ToolCallInfo) : List ProgressUpdate :=
  match tc with
  | none => []
  | some info =>
    match (info.writeCall.bind (fun w => w.resultSuccess)) with
    | some ws =>
      [{ progress := n, total := none,
         message := "✅ Created " ++ toString (ws.linesCreated.getD 0) ++ " lines (" ++ toString (ws.fileSize.getD 0) ++ " bytes)" }]
    | none =>
      match (info.readCall.bind (fun r => r.resultSuccess)) with
      | some rs =>
        [{ progress := n, total := none, message := "✅ Read " ++ toString (rs.totalLines.getD 0) ++ " lines" }]
      | none =>
        if (info.writeCall.map (fun w => w.hasResult)).getD false ||
           (info.readCall.map (fun r => r.hasResult)).getD false then
          [{ progress := n, total := none, message := "✅ Tool #" ++ toString n ++ " completed" }]
        else []

/-- Embeds `handleStreamEvent` (src/server.js lines 413-508): one
parsed event updates the decoder state and emits zero or one progress
updates. -/
def handleStreamEvent (s : StreamState) (e : RawEvent) : StreamState × List ProgressUpdate :=
  if e.type = "system" then
    if e.subtype = some "init" then
      (s, [{ progress := 0, total := none,
             message := "Initializing cursor-agent (model: " ++ jsOrStr e.model "unknown" ++ ")..." }])
    else (s, [])
  else if e.type = "assistant" then
    let text := jsOrStr e.msgText ""
    if text = "" then (s, [])
    else
      let acc := s.accumulatedText ++ text
      ({ s with accumulatedText := acc },
       [{ progress := acc.length, total := none,
          message := "Generating response... (" ++ toString acc.length ++ " characters)" }])
  else if e.type = "tool_call" then
    if e.subtype = some "started" then
      let n := s.toolCount + 1
      ({ s with toolCount := n }, [toolStartedUpdate n e.toolCall])
    else if e.subtype = some "completed" then
      (s, toolCompletedUpdates s.toolCount e.toolCall)
    else (s, [])
  else if e.type = "result" then
    (s, [{ progress := 100, total := some 100,
           message := "Completed in " ++ toString (e.durationMs.getD 0) ++ "ms" }])
  else (s, [])

/-- Feed a sequence of parsed events through the decoder, collecting
all emitted progress updates in order. -/
def processEvents (s : StreamState) (evs : List RawEvent) : StreamState × List ProgressUpdate :=
  evs.foldl (fun acc e =>
    let r := handleStreamEvent acc.1 e
    (r.1, acc.2 ++ r.2)) (s, [])

/-- Shorthand for the streamed `assistant` text-delta event of the
claims: `{type:"assistant", message:{content:[{text:t}]}}`. -/
def assistantEvent (t : String) : RawEvent :=
  { type := "assistant", msgText := some t }

/-! ## Helper lemmas -/

/-- After settlement, no event changes the settled guard or the
resolution value. -/
theorem step_after_settle (cfg : SupConfig) (s : SupState) (e : SupEvent) (h : s.settled = true) :
    (step cfg s e).settled = true ∧ (step cfg s e).result = s.result := by
  cases e <;> simp [step, cancelStep, settleWith, h] <;> (try split) <;> simp_all

/-- Trace version of `step_after_settle`. -/
theorem runSup_after_settle (cfg : SupConfig) (evs : List SupEvent) :
    ∀ s : SupState, s.settled = true →
      (runSup cfg s evs).settled = true ∧ (runSup cfg s evs).result = s.result := by
  induction evs with
  | nil => intro s h; exact ⟨h, rfl⟩
  | cons e rest ih =>
    intro s h
    have h1 := step_after_settle cfg s e h
    have h2 := ih (step cfg s e) h1.1
    simp only [runSup, List.foldl_cons] at *
    exact ⟨h2.1, h2.2.trans h1.2⟩

/-- Any step that changes the resolution value is a terminal
transition from an unsettled state, and it clears both timers. -/
theorem step_settling (cfg : SupConfig) (s : SupState) (e : SupEvent)
    (h : (step cfg s e).result ≠ s.result) :
    s.settled = false ∧ (step cfg s e).settled = true ∧
    (step cfg s e).mainTimerActive = false ∧ (step cfg s e).idleTimerActive = false ∧
    (step cfg s e).result.isSome = true := by
  cases e <;>
    simp only [step, cancelStep, settleWith] at h ⊢ <;>
    (try split at h) <;>
    (try split at h) <;>
    simp_all

/-! ## Claim theorems -/

/-- C1: after the first terminal transition sets the settled guard,
every later completion event (process close, process error, timer fire)
leaves the resolution value untouched; each of the terminal completion
sources (clean exit, non-zero exit, spawn error, timeout-fire and the
spec-modelled cancellation; an idle-kill resolves through the ensuing
close) is settled-guarded, so the promise never resolves a second time;
and both timers are cleared by the terminal transition itself, before
the result exists. -/
theorem invocation_settles_at_most_once (cfg : SupConfig) (s : SupState)
    (evs : List SupEvent) (e : SupEvent) :
    (s.settled = true →
      (runSup cfg s evs).settled = true ∧ (runSup cfg s evs).result = s.result) ∧
    ((step cfg s e).result ≠ s.result →
      s.settled = false ∧ (step cfg s e).settled = true ∧
      (step cfg s e).mainTimerActive = false ∧ (step cfg s e).idleTimerActive = false ∧
      (step cfg s e).result.isSome = true) :=
  ⟨fun h => runSup_after_settle cfg evs s h, fun h => step_settling cfg s e h⟩

/-- A concrete supervisor configuration used by witnesses. -/
def cfgW : SupConfig :=
  { cmd := "cursor-agent", finalArgv := ["--print"], capPath := none,
    timeoutMs := 30000, idleMs := 0 }

/-- A concrete already-settled supervisor state used by witnesses. -/
def settledStateW : SupState :=
  settleWith initSupState { text := "done", isError := false }

/-- Witness for C1 at concrete inputs: a settled invocation ignores a
later close and timer fire, and a close from the initial state clears
the hard-timeout timer. -/
theorem invocation_settles_at_most_once_witness :
    (runSup cfgW settledStateW [SupEvent.procClose (some 1), SupEvent.mainTimerFire]).result =
      some { text := "done", isError := false } ∧
    (step cfgW initSupState (SupEvent.procClose (some 1))).mainTimerActive = false := by
  constructor
  · exact ((invocation_settles_at_most_once cfgW settledStateW
      [SupEvent.procClose (some 1), SupEvent.mainTimerFire] SupEvent.mainTimerFire).1
      (by decide)).2.trans (by decide)
  · exact ((invocation_settles_at_most_once cfgW initSupState []
      (SupEvent.procClose (some 1))).2 (by decide)).2.2.1

/-- C2(counterexample): both validators trim their input before
resolving it, so the input `"/x/repo "` — whose own absolute resolution
`"/x/repo "` is neither the base `"/x/repo"` nor prefixed by
`"/x/repo/"`, i.e. it satisfies the claim's escape condition — is
accepted by both validators instead of raising `PathEscape`. -/
theorem path_validation_claim_counterexample :
    jsPathResolve "/x/repo" "/x/repo " ≠ "/x/repo" ∧
    jsStartsWith (jsPathResolve "/x/repo" "/x/repo ") ("/x/repo" ++ "/") = false ∧
    validateWorkingDirectory "/x/repo" (some "/x/repo ") = .ok "/x/repo" ∧
    validateFilePath "/x/repo" (some "/x/repo ") = .ok "/x/repo" := by decide

/-- C2(amended): for every input whose trimmed form resolves to neither
the base directory nor a separator-bounded descendant of it, both
`validateWorkingDirectory` and `validateFilePath` fail with a
`PathEscape` error; sibling directories sharing a string prefix with the
base (such as `/x/repo-evil` against base `/x/repo`) are rejected. -/
theorem path_validation_escape (base p : String)
    (hbase : jsPathResolve base base = base)
    (ht : jsTrim p ≠ "")
    (h1 : jsPathResolve base (jsTrim p) ≠ base)
    (h2 : jsStartsWith (jsPathResolve base (jsTrim p)) (base ++ "/") = false) :
    isPathEscape (validateWorkingDirectory base (some p)) = true ∧
    isPathEscape (validateFilePath base (some p)) = true := by
  constructor <;>
    simp only [validateWorkingDirectory, validateFilePath, Option.getD, hbase] <;>
    rw [if_neg ht, if_pos ⟨h1, h2⟩] <;>
    rfl

/-- Witness for C2(amended): the sibling directory `/x/repo-evil`
sharing the string prefix `/x/repo` with the base is rejected by both
validators. -/
theorem path_validation_escape_witness :
    isPathEscape (validateWorkingDirectory "/x/repo" (some "/x/repo-evil")) = true ∧
    isPathEscape (validateFilePath "/x/repo" (some "/x/repo-evil")) = true :=
  path_validation_escape "/x/repo" "/x/repo-evil" (by decide) (by decide) (by decide) (by decide)

/-- C3: `validateExecutablePath` returns the configured override (or
the sentinel `"cursor-agent"` without one) on empty or whitespace
input; accepts the sentinel; accepts an input trimming to exactly the
configured `CURSOR_AGENT_PATH`; and rejects every other input with an
`InvalidExecutable` error. -/
theorem validateExecutablePath_policy (envPath : Option String) (e : String) :
    validateExecutablePath envPath none = .ok (envPath.getD "cursor-agent") ∧
    (jsTrim e = "" → validateExecutablePath envPath (some e) = .ok (envPath.getD "cursor-agent")) ∧
    (jsTrim e = "cursor-agent" → validateExecutablePath envPath (some e) = .ok "cursor-agent") ∧
    (∀ p, envPath = some p → jsTrim e = p → validateExecutablePath envPath (some e) = .ok p) ∧
    (jsTrim e ≠ "" → jsTrim e ≠ "cursor-agent" → envPath ≠ some (jsTrim e) →
      isInvalidExecutable (validateExecutablePath envPath (some e)) = true) := by
  have h0 : jsTrim "" = "" := rfl
  refine ⟨?_, ?_, ?_, ?_, ?_⟩
  · cases envPath <;> simp [validateExecutablePath, h0]
  · intro h; cases envPath <;> simp [validateExecutablePath, h]
  · intro h
    have hne : jsTrim e ≠ "" := by rw [h]; decide
    cases envPath <;> simp [validateExecutablePath, h, hne]
  · intro p hp h
    subst hp
    by_cases hz : jsTrim e = ""
    · simp [validateExecutablePath, hz]
    · by_cases hs : jsTrim e = "cursor-agent"
      · have hp2 : p = "cursor-agent" := by rw [← h, hs]
        subst hp2
        simp [validateExecutablePath, hz, hs]
      · rw [h] at hz hs
        simp [validateExecutablePath, h, hz, hs]
  · intro h1 h2 h3
    cases envPath with
    | none => simp [validateExecutablePath, h1, h2, isInvalidExecutable]
    | some p =>
      have hne : jsTrim e ≠ p := fun hc => h3 (by rw [hc])
      simp [validateExecutablePath, h1, h2, hne, isInvalidExecutable]

/-- Witness for C3 at concrete inputs: the override is returned for an
input trimming to it, and an unrelated path is rejected. -/
theorem validateExecutablePath_policy_witness :
    validateExecutablePath (some "/opt/ca") (some " /opt/ca ") = .ok "/opt/ca" ∧
    isInvalidExecutable (validateExecutablePath (some "/opt/ca") (some "/usr/bin/evil")) = true := by
  constructor
  · exact (validateExecutablePath_policy (some "/opt/ca") " /opt/ca ").2.2.2.1 "/opt/ca" rfl (by decide)
  · exact (validateExecutablePath_policy (some "/opt/ca") "/usr/bin/evil").2.2.2.2
      (by decide) (by decide) (by decide)

/-- C5: the close handler resolves an unsettled invocation with
`closeResult`; that result is a success (no error flag) exactly when
the exit code is zero or the process was idle-killed with nonempty
stdout, its success content is the accumulated stdout or the
`"(no output)"` marker, and its failure content surfaces the exit code
with stderr, else stdout, else the marker. -/
theorem closeResult_characterization (code : Option Int) (out err : String) (k : Bool)
    (cfg : SupConfig) (s : SupState) (hs : s.settled = false) :
    (step cfg s (SupEvent.procClose code)).result =
      some (closeResult code s.out s.err s.killedByIdle) ∧
    ((closeResult code out err k).isError = false ↔ (code = some 0 ∨ (k = true ∧ out ≠ ""))) ∧
    ((code = some 0 ∨ (k = true ∧ out ≠ "")) →
      (closeResult code out err k).text = (if out = "" then "(no output)" else out)) ∧
    (¬(code = some 0 ∨ (k = true ∧ out ≠ "")) →
      (closeResult code out err k).text =
        "cursor-agent exited with code " ++ jsShowExitCode code ++ "\n" ++
          (if err ≠ "" then err else if out ≠ "" then out else "(no output)")) := by
  refine ⟨?_, ?_, ?_, ?_⟩
  · simp [step, hs, settleWith]
  · by_cases hc : code = some 0 ∨ (k = true ∧ out ≠ "") <;> simp [closeResult, hc]
  · intro hc; simp [closeResult, hc]
  · intro hc; simp [closeResult, hc]

/-- Witness for C5 at concrete inputs: a zero exit resolves to the
accumulated stdout without the error flag, and a non-zero exit with
empty stdout surfaces the code and stderr. -/
theorem closeResult_characterization_witness :
    (step cfgW initSupState (SupEvent.procClose (some 2))).result =
      some (closeResult (some 2) "" "" false) ∧
    (closeResult (some 2) "" "boom" false).isError = true ∧
    (closeResult (some 0) "hi" "" false).text = "hi" := by
  have h := closeResult_characterization (some 2) "" "boom" false cfgW initSupState (by decide)
  have h0 := closeResult_characterization (some 0) "hi" "" false cfgW initSupState (by decide)
  refine ⟨h.1, ?_, ?_⟩
  · cases hb : (closeResult (some 2) "" "boom" false).isError with
    | false => exact absurd (h.2.1.mp hb) (by decide)
    | true => rfl
  · exact (h0.2.2.1 (Or.inl rfl)).trans (by decide)

/-- C6: a cancellation signal already triggered at call time makes the
invocation resolve immediately to a cancellation error whose text
carries the cancellation reason, without a supervisor (and hence
without a child process) ever being created. -/
theorem preSpawn_cancellation (sig : CancelSignal) (h : sig.aborted = true) :
    invokeStart (some sig) =
      StartOutcome.immediate { text := cancelMsg sig.reason, isError := true } ∧
    cancelMsg sig.reason = "cursor-agent invocation was cancelled: " ++ sig.reason ∧
    (∀ s : SupState, invokeStart (some sig) ≠ StartOutcome.spawned s) := by
  refine ⟨by simp [invokeStart, h], rfl, ?_⟩
  intro s
  simp [invokeStart, h]

/-- Witness for C6: a concrete pre-aborted signal resolves immediately
with the reason embedded, spawning nothing. -/
theorem preSpawn_cancellation_witness :
    invokeStart (some { aborted := true, reason := "user stop" }) =
      StartOutcome.immediate
        { text := "cursor-agent invocation was cancelled: user stop", isError := true } :=
  (preSpawn_cancellation { aborted := true, reason := "user stop" } rfl).1

/-- C7(code evaluation at the failing input): consuming the streamed
events `{type:"assistant", ...text:"Hello"}` then `{... text:" world"}`
produces exactly one progress update per event with monotonically
increasing cumulative character counts, but the messages are the fixed
status strings `"Generating response... (N characters)"`, not the raw
deltas `"Hello"` and `" world"` that the claim (and the repository's
integration tests) require. -/
theorem assistant_delta_messages_diverge :
    (processEvents initStreamState [assistantEvent "Hello", assistantEvent " world"]).2.map
        (fun u => u.message) =
      ["Generating response... (5 characters)", "Generating response... (11 characters)"] ∧
    (processEvents initStreamState [assistantEvent "Hello", assistantEvent " world"]).2.map
        (fun u => u.progress) = [5, 11] ∧
    (processEvents initStreamState [assistantEvent "Hello", assistantEvent " world"]).2.map
        (fun u => u.message) ≠ ["Hello", " world"] := by decide

/-- C8: for raw argv `["-m","custom-model","prompt text"]` with the
environment default model `"gpt-x"` and no per-call model, the composed
argv keeps the caller's single `-m custom-model` pair, injects no
`--model` flag from the environment, and keeps `"prompt text"` as the
final element. -/
theorem model_flag_scenario :
    composeFinalArgv ["-m", "custom-model", "prompt text"] "text" none (some "gpt-x") none false true false =
      ["--print", "--output-format", "text", "-m", "custom-model", "prompt text"] ∧
    (composeFinalArgv ["-m", "custom-model", "prompt text"] "text" none (some "gpt-x") none false true false).filter
        isModelFlag = ["-m"] ∧
    (composeFinalArgv ["-m", "custom-model", "prompt text"] "text" none (some "gpt-x") none false true false).getLast? =
      some "prompt text" := by decide

/-- C9(counterexample): the spawn-failure handler deliberately embeds
the validated `CURSOR_AGENT_PATH` value — copied from the ambient
environment into `safeEnv` — in its error text, so an error result can
contain a raw ambient-environment variable value. -/
theorem spawn_error_embeds_env_value :
    jsIncludes
      (spawnErrorMsg "cursor-agent" "spawn ENOENT" ["--print"] (some "/opt/ambient/cursor-agent"))
      "/opt/ambient/cursor-agent" = true ∧
    (step { cmd := "cursor-agent", finalArgv := ["--print"],
            capPath := some "/opt/ambient/cursor-agent", timeoutMs := 30000, idleMs := 0 }
        initSupState (SupEvent.procError "spawn ENOENT")).result =
      some { text := spawnErrorMsg "cursor-agent" "spawn ENOENT" ["--print"]
                       (some "/opt/ambient/cursor-agent"),
             isError := true } := by decide

/-- C9(amended): every error message is built only from
invocation-local diagnostics (failure message, composed argv, exit
data, timeout duration) — except that the spawn-failure text appends a
`CURSOR_AGENT_PATH=<value>` line verbatim exactly when the validated
override is configured, and omits it otherwise. -/
theorem error_message_shapes (cmd emsg : String) (argv : List String) (p : String) (t : Nat) :
    spawnErrorMsg cmd emsg argv (some p) =
      spawnErrorMsg cmd emsg argv none ++ ("CURSOR_AGENT_PATH=" ++ p ++ "\n") ∧
    spawnErrorMsg cmd emsg argv none =
      "Failed to start \"" ++ cmd ++ "\": " ++ emsg ++ "\n" ++
        "Args: " ++ jsonShowStrings argv ++ "\n" ∧
    timeoutMsg t = "cursor-agent timed out after " ++ toString t ++ "ms" := by
  refine ⟨?_, ?_, rfl⟩ <;> simp [spawnErrorMsg, String.append_assoc]

/-- C10(counterexample): `"a/."` is a relative value that contains a
path separator, yet `executablePathSchema` parsing accepts it and
returns it unchanged, because the traversal guard inspects the
normalized form `"a"`, which carries no separator. -/
theorem executablePathSchema_claim_counterexample :
    jsIncludes "a/." "/" = true ∧
    jsStartsWith "a/." "/" = false ∧
    jsPathNormalize "a/." = "a" ∧
    executablePathParse (some "a/.") = .ok (some "a/.") := by decide

/-- C10(amended): the guard of `executablePathSchema` is evaluated on
the normalized trimmed value: parsing throws whenever that normalized
form contains `..`, and whenever it is relative and contains a
separator; a relative value whose normalized form carries neither is
accepted and returned as the trimmed original — so the resolved
executable identity can be a non-absolute name other than the
sentinel. -/
theorem executablePathParse_policy (v : String) (ht : jsTrim v ≠ "") :
    (jsIncludes (jsPathNormalize (jsTrim v)) ".." = true →
      parseThrew (executablePathParse (some v)) = true) ∧
    (jsStartsWith (jsPathNormalize (jsTrim v)) "/" = false →
      jsIncludes (jsPathNormalize (jsTrim v)) "/" = true →
      parseThrew (executablePathParse (some v)) = true) ∧
    (jsIncludes (jsPathNormalize (jsTrim v)) ".." = false →
      jsStartsWith (jsPathNormalize (jsTrim v)) "/" = false →
      jsIncludes (jsPathNormalize (jsTrim v)) "/" = false →
      executablePathParse (some v) = .ok (some (jsTrim v))) := by
  refine ⟨?_, ?_, ?_⟩
  · intro h1
    simp [executablePathParse, ht, h1, parseThrew]
  · intro h1 h2
    simp [executablePathParse, ht, h1, h2, parseThrew]
  · intro h1 h2 h3
    simp [executablePathParse, ht, h1, h2, h3]

/-- Witness for C10(amended): the bare non-absolute name
`"cursor-agent-v2"` is accepted unchanged, and a normalized form
containing `..` throws. -/
theorem executablePathParse_policy_witness :
    executablePathParse (some "cursor-agent-v2") = .ok (some "cursor-agent-v2") ∧
    parseThrew (executablePathParse (some "../up")) = true := by
  constructor
  · exact (executablePathParse_policy "cursor-agent-v2" (by decide)).2.2
      (by decide) (by decide) (by decide)
  · exact (executablePathParse_policy "../up" (by decide)).1 (by decide)

/-! ## C4 helper lemmas -/

/-- An `optEntry` contributes only its fixed key. -/
theorem mem_optEntry_keys {k name : String} {v : Option String}
    (h : k ∈ (optEntry name v).map Prod.fst) : k = name := by
  cases v <;> simp_all [optEntry]

/-- A `condEntry` contributes only its fixed key. -/
theorem mem_condEntry_keys {k name : String} {b : Bool} {av : Option String}
    (h : k ∈ (condEntry name b av).map Prod.fst) : k = name := by
  cases b <;> simp_all [condEntry]

/-- A `natEntry` contributes only its fixed key. -/
theorem mem_natEntry_keys {k name : String} {v : Option Nat}
    (h : k ∈ (natEntry name v).map Prod.fst) : k = name := by
  cases v <;> simp_all [natEntry]

/-- Every key of the validated-configuration part of `safeEnv` is a
recognized configuration variable. -/
theorem mem_safeEnvBase_keys {k : String} {env : ValidatedEnv} {ambient : List (String × String)}
    (h : k ∈ (safeEnvBase env ambient).map Prod.fst) : k ∈ recognizedConfigKeys := by
  simp only [safeEnvBase, List.map_append, List.mem_append, or_assoc] at h
  rcases h with h | h | h | h | h | h | h | h
  · rw [mem_optEntry_keys h]; decide
  · rw [mem_optEntry_keys h]; decide
  · rw [mem_condEntry_keys h]; decide
  · rw [mem_condEntry_keys h]; decide
  · rw [mem_optEntry_keys h]; decide
  · rw [mem_condEntry_keys h]; decide
  · rw [mem_natEntry_keys h]; decide
  · rw [mem_natEntry_keys h]; decide

/-- Every key added by the ambient scan satisfies the allow-list or
allow-family predicate. -/
theorem mem_scan_keys {k : String} :
    ∀ (l acc : List (String × String)),
      k ∈ (l.foldl scanStep acc).map Prod.fst →
      k ∈ acc.map Prod.fst ∨ (systemWhitelist.contains k || allowedFamily k) = true := by
  intro l
  induction l with
  | nil => intro acc h; exact Or.inl h
  | cons kv rest ih =>
    intro acc h
    rcases ih (scanStep acc kv) h with h1 | h1
    · by_cases hc :
        ((systemWhitelist.contains kv.1 || allowedFamily kv.1) && !(acc.any (fun e => e.1 = kv.1))) = true
      · rw [scanStep, if_pos hc] at h1
        simp only [List.map_append, List.mem_append] at h1
        rcases h1 with h1 | h1
        · exact Or.inl h1
        · right
          have hk : k = kv.1 := by simpa using h1
          rw [hk]
          simp only [Bool.and_eq_true] at hc
          exact hc.1
      · rw [scanStep, if_neg hc] at h1
        exact Or.inl h1
    · exact Or.inr h1

/-- C4: every key of the sanitized environment is a recognized
validated-configuration variable, a member of the fixed system
allow-list, or carries one of the three allow-listed families
(`CURSOR_AGENT_`, `NPM_CONFIG_`, `LC_`); consequently no key containing
`"SECRET"` or `"TOKEN"` appears unless allow-listed by such a family. -/
theorem getSafeEnvironment_allowlist (env : ValidatedEnv) (ambient : List (String × String))
    (k : String) (h : k ∈ (getSafeEnvironment env ambient).map Prod.fst) :
    (k ∈ recognizedConfigKeys ∨ k ∈ systemWhitelist ∨ allowedFamily k = true) ∧
    ((jsIncludes k "SECRET" = true ∨ jsIncludes k "TOKEN" = true) → allowedFamily k = true) := by
  have noSecret : ∀ x ∈ recognizedConfigKeys ++ systemWhitelist,
      jsIncludes x "SECRET" = false ∧ jsIncludes x "TOKEN" = false := by decide
  have main : k ∈ recognizedConfigKeys ∨ k ∈ systemWhitelist ∨ allowedFamily k = true := by
    rcases mem_scan_keys ambient (safeEnvBase env ambient) h with h1 | h1
    · exact Or.inl (mem_safeEnvBase_keys h1)
    · simp only [Bool.or_eq_true] at h1
      rcases h1 with h2 | h2
      · exact Or.inr (Or.inl (by simpa using h2))
      · exact Or.inr (Or.inr h2)
  refine ⟨main, fun hsec => ?_⟩
  rcases main with hm | hm | hm
  · obtain ⟨hS, hT⟩ := noSecret k (List.mem_append_left _ hm)
    rcases hsec with hx | hx
    · rw [hS] at hx; exact absurd hx (by decide)
    · rw [hT] at hx; exact absurd hx (by decide)
  · obtain ⟨hS, hT⟩ := noSecret k (List.mem_append_right _ hm)
    rcases hsec with hx | hx
    · rw [hS] at hx; exact absurd hx (by decide)
    · rw [hT] at hx; exact absurd hx (by decide)
  · exact hm

/-- A concrete validated environment used by the C4 witness. -/
def envW : ValidatedEnv :=
  { CURSOR_AGENT_MODEL := some "gpt-x", DEBUG_CURSOR_MCP := true }

/-- A concrete ambient environment used by the C4 witness: it contains
secret-shaped keys, of which only the family-allow-listed one may
survive sanitization. -/
def ambientW : List (String × String) :=
  [("PATH", "/usr/bin"), ("AWS_SECRET_KEY", "s3cr3t"), ("NPM_CONFIG_TOKEN", "tok"),
   ("GITHUB_TOKEN", "gh"), ("DEBUG_CURSOR_MCP", "yes")]

/-- Witness for C4 at concrete inputs: the surviving secret-shaped key
`NPM_CONFIG_TOKEN` is family-allow-listed, and the non-allow-listed
secrets are absent from the sanitized environment. -/
theorem getSafeEnvironment_allowlist_witness :
    allowedFamily "NPM_CONFIG_TOKEN" = true ∧
    ¬ ("AWS_SECRET_KEY" ∈ (getSafeEnvironment envW ambientW).map Prod.fst) ∧
    ¬ ("GITHUB_TOKEN" ∈ (getSafeEnvironment envW ambientW).map Prod.fst) := by
  refine ⟨?_, by decide, by decide⟩
  exact (getSafeEnvironment_allowlist envW ambientW "NPM_CONFIG_TOKEN" (by decide)).2
    (Or.inr (by decide))

end CursorAgentMcp
